import Mathlib

/-!
Verification of the kube-copilot transcript-to-insight pipeline.

Texts are modelled as `List Char` (Python `str`).  Python's `str.strip`,
`str.split`, substring containment (`in`) and `str.startswith` are embedded
as executable functions on character lists.
-/

/-- Python-style `str.strip()`: drop leading and trailing whitespace. -/
def pyStrip (s : List Char) : List Char :=
  ((s.dropWhile Char.isWhitespace).reverse.dropWhile Char.isWhitespace).reverse

/-- Counts maximal runs of characters satisfying `p`; the boolean argument
records whether the scanner is currently inside such a run. -/
def countRunsAux (p : Char → Bool) : List Char → Bool → Nat
  | [], _ => 0
  | c :: rest, inRun =>
    if p c then (if inRun then 0 else 1) + countRunsAux p rest true
    else countRunsAux p rest false

/-- Number of maximal runs of characters satisfying `p` in `s`. -/
def countRuns (p : Char → Bool) (s : List Char) : Nat :=
  countRunsAux p s false

/-- `len(re.findall(r"[.!?]+", s))` from `backend/main.py`: the number of
maximal runs of sentence-terminal punctuation. -/
def countSentences (s : List Char) : Nat :=
  countRuns (fun c => c = '.' || c = '!' || c = '?') s

/-- `len(s.split())` in Python: the number of maximal runs of
non-whitespace characters. -/
def countWords (s : List Char) : Nat :=
  countRuns (fun c => !c.isWhitespace) s

/-! ## The agent layer (`backend/agent.py`)

`TranscriptState` has two channels: `latest_transcript` (replace semantics)
and `ai_history` (append semantics, `operator.add`).  Messages carry a role
(LangChain message class), their text content, and whether the message
carries structured tool calls. -/

/-- LangChain message kinds used by `backend/agent.py`. -/
inductive Role where
  | system
  | human
  | ai
  | tool
deriving DecidableEq, Repr

/-- One message: role, content, and whether it carries tool calls
(`AIMessage.tool_calls` non-empty). -/
structure Msg where
  role : Role
  content : List Char
  toolCalls : Bool
deriving DecidableEq, Repr

/-- The LangGraph state from `backend/agent.py` (`TranscriptState`):
`latest_transcript` replaces, `ai_history` appends. -/
structure TranscriptState where
  latest_transcript : Option Msg
  ai_history : List Msg
deriving DecidableEq, Repr

/-- What the model runtime hands back from one `invoke` call. -/
structure ModelResponse where
  content : List Char
  toolCalls : Bool
deriving DecidableEq, Repr

/-- Python's contiguous substring containment `s in t`. -/
def isSubstrOf (s : List Char) : List Char → Bool
  | [] => s.isEmpty
  | c :: rest => s.isPrefixOf (c :: rest) || isSubstrOf s rest

/-- The canonical silence sentinel literal `"[SILENT]"`. -/
def SILENT : List Char := "[SILENT]".data

/-- `previous_ai_responses` in `call_model_node`: the stripped contents of
all `AIMessage`s already in the history. -/
def previous_ai_responses (history : List Msg) : List (List Char) :=
  (history.filter (fun m => m.role == Role.ai)).map (fun m => pyStrip m.content)

/-- `is_exact_duplicate`: the trimmed new content occurs verbatim among
prior AI responses. -/
def is_exact_duplicate (newContent : List Char) (history : List Msg) : Bool :=
  (previous_ai_responses history).contains newContent

/-- `is_subset_duplicate`: the trimmed new content is contained in some
prior AI response without being equal to it. -/
def is_subset_duplicate (newContent : List Char) (history : List Msg) : Bool :=
  (previous_ai_responses history).any
    (fun old => isSubstrOf newContent old && newContent != old)

/-- The disjunction guarding `response.content = "[SILENT]"` in
`call_model_node` (applied to the stripped content), in source order. -/
def forceSilence (newContent : List Char) (history : List Msg) : Bool :=
  is_exact_duplicate newContent history
  || is_subset_duplicate newContent history
  || isSubstrOf SILENT newContent
  || ("I cannot provide".data).isPrefixOf newContent
  || isSubstrOf ("(Siehe oben".data) newContent
  || isSubstrOf (": Das bedeutet".data) newContent

/-- The content the response object holds after the repetition/format check:
`"[SILENT]"` when any check fires, otherwise the raw content unchanged
(the code mutates `response.content` only in the silence branch). -/
def filterOutput (raw : List Char) (history : List Msg) : List Char :=
  if forceSilence (pyStrip raw) history then SILENT else raw

/-- `call_model_node` minus the LLM call itself (the model response is a
parameter): assembles happen before, then the guarded response is appended
to `ai_history` and `latest_transcript` is cleared (`None`). -/
def call_model_node (st : TranscriptState) (resp : ModelResponse) : TranscriptState :=
  { latest_transcript := none,
    ai_history :=
      st.ai_history ++ [⟨Role.ai, filterOutput resp.content st.ai_history, resp.toolCalls⟩] }

/-- The message-list assembly at the start of `call_model_node`:
system prompt, then history, then the pending transcript if present;
otherwise, if the last history message is a tool result, the most recent
`HumanMessage` found in the history is re-appended. -/
def assembleMessages (sys : Msg) (st : TranscriptState) : List Msg :=
  match st.latest_transcript with
  | some t => sys :: (st.ai_history ++ [t])
  | none =>
    match st.ai_history.getLast? with
    | some last =>
      if last.role = Role.tool then
        match st.ai_history.reverse.find? (fun m => m.role == Role.human) with
        | some h => sys :: (st.ai_history ++ [h])
        | none => sys :: st.ai_history
      else sys :: st.ai_history
    | none => sys :: st.ai_history

/-- `should_continue`: route to the tool node exactly when the last message
of `ai_history` carries tool calls. -/
def should_continue (st : TranscriptState) : Bool :=
  match st.ai_history.getLast? with
  | some m => m.toolCalls
  | none => false

/-- The `ToolNode` step (`messages_key="ai_history"`): append the tool
result as a tool message. -/
def tool_node (st : TranscriptState) (toolResult : List Char) : TranscriptState :=
  { st with ai_history := st.ai_history ++ [⟨Role.tool, toolResult, false⟩] }

/-! ## Driving the graph

`AgentService.__init__` wires `call_model -> (should_continue) -> call_tool
-> call_model`.  The runtime bounds a run by its recursion limit and raises
`GraphRecursionError` when the limit is hit; the repository passes no limit
of its own and `should_continue` contains no iteration counter, so the run
is modelled with explicit fuel and an error outcome on exhaustion. -/

/-- Outcome of one graph run: a final state, or the runtime's
recursion-limit error. -/
inductive RunResult where
  | finished (st : TranscriptState)
  | recursionError
deriving DecidableEq, Repr

/-- One graph run with `fuel` remaining model-call iterations.  `oracle`
is the opaque model runtime (`self._llm.invoke`), `toolResult` the opaque
external tool output for the state it is called in. -/
def runGraph (sys : Msg) (oracle : List Msg → ModelResponse)
    (toolResult : TranscriptState → List Char) :
    Nat → TranscriptState → RunResult
  | 0, _ => RunResult.recursionError
  | fuel + 1, st =>
    let st' := call_model_node st (oracle (assembleMessages sys st))
    if should_continue st' then
      runGraph sys oracle toolResult fuel (tool_node st' (toolResult st'))
    else RunResult.finished st'

/-! ## The backend session loop (`backend/main.py`)

`transcription_sender` keeps `sentence_count` (count at last dispatch) and
the latest `stabilized_text`; on each queued snapshot it dispatches the
full snapshot to the agent when the sentence count is a positive multiple
of 3 different from `sentence_count`.  On a stop signal,
`message_receiver` gathers the sender's final state and performs one more
forced dispatch with the full stabilized text when it is non-empty, then
closes the connection. -/

/-- The sentence-count gate of `transcription_sender` (lines 97-108):
given the count at last dispatch and the new full snapshot, decide whether
to dispatch and produce the updated `sentence_count`. -/
def senderStep (sentenceCount : Nat) (snap : List Char) : Bool × Nat :=
  let cur := countSentences snap
  if 0 < cur && cur % 3 == 0 && cur != sentenceCount then (true, cur)
  else (false, sentenceCount)

/-- Observable per-session state of the backend orchestrator: the count at
last dispatch, the latest stabilized snapshot, the list of agent-invocation
inputs so far, and whether the session is closed. -/
structure Session where
  sentenceCount : Nat
  stabilized : List Char
  dispatches : List (List Char)
  closed : Bool
deriving DecidableEq, Repr

/-- Initial session state (`sentence_count = 0`, `stabilized_text = ""`). -/
def initSession : Session :=
  ⟨0, [], [], false⟩

/-- Events reaching the session: a stabilized-text snapshot from the
queue, or the stop signal. -/
inductive Event where
  | text (snap : List Char)
  | stop
deriving DecidableEq, Repr

/-- Processing one stabilized snapshot in `transcription_sender`'s loop:
store it, and dispatch the full snapshot when the sentence gate fires.
A closed session processes nothing (the loop has exited). -/
def processSnapshot (s : Session) (snap : List Char) : Session :=
  if s.closed then s
  else
    let g := senderStep s.sentenceCount snap
    if g.1 then
      { s with stabilized := snap, sentenceCount := g.2, dispatches := s.dispatches ++ [snap] }
    else { s with stabilized := snap }

/-- The stop handling in `message_receiver` (lines 163-189): after the
sender winds down, one forced dispatch of the full `stabilized_text` when
it is non-empty (`if agent_service and stabilized_text`), then the
connection is closed and the loop breaks. -/
def processStop (s : Session) : Session :=
  if s.closed then s
  else if s.stabilized.isEmpty then { s with closed := true }
  else { s with dispatches := s.dispatches ++ [s.stabilized], closed := true }

/-- One event step of the session. -/
def processEvent (s : Session) : Event → Session
  | Event.text snap => processSnapshot s snap
  | Event.stop => processStop s

/-- A whole run: fold the event list through the session. -/
def runSession (s : Session) (evs : List Event) : Session :=
  evs.foldl processEvent s

/-! ## The GUI word-count gate (`gui.py`, lines 144-158)

When a changed, non-blank stabilized snapshot arrives,
`new_transcript_chunk = stabilized_text[len(last_agent_transcript):].strip()`
is computed, and the agent is dispatched when the chunk is non-empty and
has more than `minWords` words (`len(chunk.split()) > 2` in the source,
with the threshold hard-coded to 2); only then does
`last_agent_transcript` advance, to the full current snapshot. -/

/-- The new suffix since the last dispatch, as computed in `gui.py`:
length-based slicing followed by `strip()`. -/
def newChunk (lastAgentTranscript snap : List Char) : List Char :=
  pyStrip (snap.drop lastAgentTranscript.length)

/-- One evaluation of the word-count gate: returns whether the agent was
dispatched and the updated `last_agent_transcript`. -/
def guiStep (minWords : Nat) (lastAgentTranscript snap : List Char) :
    Bool × List Char :=
  let chunk := newChunk lastAgentTranscript snap
  if !chunk.isEmpty && decide (minWords < countWords chunk) then (true, snap)
  else (false, lastAgentTranscript)

/-! ## The product search tool (`backend/tools/product_tool.py`)

Records carry the fields used by the filters; the JSON coupon is modelled
as an optional rational (`null` or a number).  Python truthiness of the
criteria is embedded: an absent or empty-string criterion is skipped, and
`p["coupon_pa"] and p["coupon_pa"] >= min_coupon_pa` is falsy when the
stored coupon is `null` or `0`. -/

/-- One record of the structured-products database. -/
structure Product where
  risk_profile : List Char
  currency : List Char
  coupon_pa : Option Rat
deriving DecidableEq

/-- `str.lower()`. -/
def lowerText (s : List Char) : List Char := s.map Char.toLower

/-- Python truthiness of an optional string criterion. -/
def truthyStr : Option (List Char) → Bool
  | none => false
  | some s => !s.isEmpty

/-- `p["coupon_pa"] and p["coupon_pa"] >= m`. -/
def couponOk (m : Rat) : Option Rat → Bool
  | none => false
  | some c => c != 0 && decide (m ≤ c)

/-- `if risk_profile: results = [p for p in results if ...]`. -/
def filterByProfile (l : List Product) (risk_profile : Option (List Char)) :
    List Product :=
  if truthyStr risk_profile then
    l.filter (fun p =>
      lowerText p.risk_profile == lowerText (risk_profile.getD []))
  else l

/-- `if currency: results = [p for p in results if ...]`. -/
def filterByCurrency (l : List Product) (currency : Option (List Char)) :
    List Product :=
  if truthyStr currency then
    l.filter (fun p => lowerText p.currency == lowerText (currency.getD []))
  else l

/-- `if min_coupon_pa is not None: results = [p for p in results if ...]`. -/
def filterByCoupon (l : List Product) (min_coupon_pa : Option Rat) :
    List Product :=
  match min_coupon_pa with
  | some m => l.filter (fun p : Product => couponOk m p.coupon_pa)
  | none => l

/-- `search_structured_products`: filter the database by each truthy
criterion in turn, then return at most the first 10 results
(`results[:10]`). -/
def search_structured_products (db : List Product)
    (risk_profile currency : Option (List Char)) (min_coupon_pa : Option Rat) :
    List Product :=
  (filterByCoupon (filterByCurrency (filterByProfile db risk_profile) currency)
    min_coupon_pa).take 10

/-! ## Helper lemmas -/

/-- `isSubstrOf` computes contiguous containment (`List.IsInfix`). -/
theorem isSubstrOf_spec (s t : List Char) : isSubstrOf s t = true ↔ s <:+: t := by
  induction t with
  | nil =>
    simp [isSubstrOf, List.isEmpty_iff, List.infix_nil]
  | cons c rest ih =>
    simp [isSubstrOf, Bool.or_eq_true, List.isPrefixOf_iff_prefix, ih,
      List.infix_cons_iff]

/-- Appending one element makes it the last. -/
theorem getLast?_append_single (l : List Msg) (m : Msg) :
    (l ++ [m]).getLast? = some m :=
  List.getLast?_concat l

/-! ## C1 -/

/-- C1 (counterexample): when the model returns the sentinel literal, the
output guard collapses the round to silence, yet `call_model_node` still
appends an agent entry — whose content is the sentinel — to the session's
turn log.  The claim states that no entry is persisted for such a round
and that memory never stores the sentinel; both are false here. -/
theorem c1_sentinel_is_persisted :
    filterOutput "[SILENT]".data [] = SILENT
    ∧ (call_model_node ⟨some ⟨Role.human, "Hello there.".data, false⟩, []⟩
        ⟨"[SILENT]".data, false⟩).ai_history
      = [⟨Role.ai, SILENT, false⟩] := by decide

/-- C1 (amended): every agent round appends exactly one entry to the
session turn log: the silence sentinel itself when the output guard
collapses the round, and the unfiltered model output when the output is
accepted. -/
theorem c1_round_persistence (st : TranscriptState) (resp : ModelResponse) :
    (call_model_node st resp).ai_history
      = st.ai_history
        ++ [⟨Role.ai, filterOutput resp.content st.ai_history, resp.toolCalls⟩]
    ∧ (forceSilence (pyStrip resp.content) st.ai_history = true →
        filterOutput resp.content st.ai_history = SILENT)
    ∧ (forceSilence (pyStrip resp.content) st.ai_history = false →
        filterOutput resp.content st.ai_history = resp.content) := by
  refine ⟨rfl, ?_, ?_⟩ <;> intro h <;> simp [filterOutput, h]

/-- C1 (witness for the amended theorem at a concrete accepted round). -/
theorem c1_round_persistence_witness :
    (call_model_node ⟨none, []⟩ ⟨"* Tip.".data, false⟩).ai_history
      = [] ++ [⟨Role.ai, filterOutput "* Tip.".data [], false⟩]
    ∧ filterOutput "* Tip.".data [] = "* Tip.".data :=
  ⟨(c1_round_persistence ⟨none, []⟩ ⟨"* Tip.".data, false⟩).1,
   (c1_round_persistence ⟨none, []⟩ ⟨"* Tip.".data, false⟩).2.2 (by decide)⟩

/-! ## C2 -/

/-- C2 (counterexample): the raw output `"a [SILENT] b"` is not textually
equal to the sentinel after trimming, is no exact or partial repeat of any
prior agent turn (the memory is empty), and matches none of the configured
bad patterns — yet the guard collapses it to silence, because the code
tests `"[SILENT]" in new_content` (containment), not equality.  Under the
claim the trimmed raw output would have been the final insight.
Additionally, an accepted raw output with surrounding whitespace is kept
verbatim — the final insight is the raw output, not its trimmed form. -/
theorem c2_sentinel_containment_not_equality :
    pyStrip "a [SILENT] b".data ≠ SILENT
    ∧ is_exact_duplicate (pyStrip "a [SILENT] b".data) [] = false
    ∧ is_subset_duplicate (pyStrip "a [SILENT] b".data) [] = false
    ∧ ("I cannot provide".data).isPrefixOf (pyStrip "a [SILENT] b".data) = false
    ∧ isSubstrOf ("(Siehe oben".data) (pyStrip "a [SILENT] b".data) = false
    ∧ isSubstrOf (": Das bedeutet".data) (pyStrip "a [SILENT] b".data) = false
    ∧ filterOutput "a [SILENT] b".data [] = SILENT
    ∧ filterOutput "* Tipp A. ".data [] = "* Tipp A. ".data
    ∧ pyStrip "* Tipp A. ".data ≠ "* Tipp A. ".data := by decide

/-- C2 (amended): if the trimmed output does not contain the sentinel
literal as a substring, is not an exact repeat of a prior agent turn, is
not a non-trivial substring of a prior agent turn, and matches no
configured known bad pattern, then the raw output is kept unchanged as the
final insight (it is not collapsed to silence). -/
theorem c2_guard_pass_through (raw : List Char) (hist : List Msg)
    (h1 : isSubstrOf SILENT (pyStrip raw) = false)
    (h2 : is_exact_duplicate (pyStrip raw) hist = false)
    (h3 : is_subset_duplicate (pyStrip raw) hist = false)
    (h4 : ("I cannot provide".data).isPrefixOf (pyStrip raw) = false)
    (h5 : isSubstrOf ("(Siehe oben".data) (pyStrip raw) = false)
    (h6 : isSubstrOf (": Das bedeutet".data) (pyStrip raw) = false) :
    filterOutput raw hist = raw := by
  simp [filterOutput, forceSilence, h1, h2, h3, h4, h5, h6]

/-- C2 (witness): a fresh bulleted insight passes the guard unchanged. -/
theorem c2_guard_pass_through_witness :
    filterOutput "* Empfehlung A.".data [] = "* Empfehlung A.".data :=
  c2_guard_pass_through "* Empfehlung A.".data [] (by decide) (by decide)
    (by decide) (by decide) (by decide) (by decide)

/-! ## C3 -/

/-- C3: for a prior agent turn `old` in session memory: a trimmed output
equal to `old` is silenced; a trimmed output that is strictly shorter and
contained in `old` is silenced; a trimmed output that strictly contains
`old` fails both repetition checks with respect to `old` (neither the
exact-duplicate test nor the subset-duplicate test fires for that turn).
The spec's own scenario — memory `"A, B, C"`, superset output
`"A, B, C, D"` — passes the whole guard un-silenced. -/
theorem c3_repetition_suppression (raw : List Char) (hist : List Msg)
    (old : List Char) (hmem : old ∈ previous_ai_responses hist) :
    (pyStrip raw = old → filterOutput raw hist = SILENT)
    ∧ (isSubstrOf (pyStrip raw) old = true → pyStrip raw ≠ old →
        filterOutput raw hist = SILENT)
    ∧ (isSubstrOf old (pyStrip raw) = true → old ≠ pyStrip raw →
        (pyStrip raw == old) = false
        ∧ (isSubstrOf (pyStrip raw) old && pyStrip raw != old) = false)
    ∧ filterOutput "A, B, C, D".data [⟨Role.ai, "A, B, C".data, false⟩]
        = "A, B, C, D".data := by
  refine ⟨?_, ?_, ?_, by decide⟩
  · intro heq
    subst heq
    have hdup : is_exact_duplicate (pyStrip raw) hist = true := by
      simp only [is_exact_duplicate, List.contains_iff_exists_mem_beq]
      exact ⟨pyStrip raw, hmem, by simp⟩
    simp [filterOutput, forceSilence, hdup]
  · intro hsub hne
    have hdup : is_subset_duplicate (pyStrip raw) hist = true := by
      simp [is_subset_duplicate, List.any_eq_true]
      exact ⟨old, hmem, hsub, by simpa using hne⟩
    simp [filterOutput, forceSilence, hdup]
  · intro hsup hne
    have hlt : old.length ≤ (pyStrip raw).length :=
      ((isSubstrOf_spec old (pyStrip raw)).1 hsup).length_le
    constructor
    · simpa using fun h => hne h.symm
    · cases hrev : isSubstrOf (pyStrip raw) old with
      | false => simp
      | true =>
        exfalso
        have hle : (pyStrip raw).length ≤ old.length :=
          ((isSubstrOf_spec (pyStrip raw) old).1 hrev).length_le
        have : old = pyStrip raw :=
          ((isSubstrOf_spec old (pyStrip raw)).1 hsup).eq_of_length
            (Nat.le_antisymm hlt hle)
        exact hne this

/-- C3 (witness): exact repeat at a concrete memory, silenced. -/
theorem c3_repetition_suppression_witness :
    filterOutput "* Tipp.".data [⟨Role.ai, "* Tipp.".data, false⟩] = SILENT :=
  (c3_repetition_suppression "* Tipp.".data
    [⟨Role.ai, "* Tipp.".data, false⟩] "* Tipp.".data (by decide)).1 (by decide)

/-! ## C4 -/

/-- The sentence gate fires exactly when the snapshot's terminator count
is a positive multiple of 3 different from the count at last dispatch. -/
theorem senderStep_fst_iff (st : Nat) (snap : List Char) :
    (senderStep st snap).1 = true
      ↔ (0 < countSentences snap ∧ countSentences snap % 3 = 0
          ∧ countSentences snap ≠ st) := by
  simp only [senderStep]
  by_cases h : (0 < countSentences snap ∧ countSentences snap % 3 = 0
      ∧ countSentences snap ≠ st)
  · obtain ⟨h1, h2, h3⟩ := h
    simp [h1, h2, h3]
  · simp only [decide_eq_true_eq, Bool.and_eq_true, beq_iff_eq, bne_iff_ne]
    by_cases h1 : 0 < countSentences snap <;>
      by_cases h2 : countSentences snap % 3 = 0 <;>
        by_cases h3 : countSentences snap ≠ st <;>
          simp_all

/-- The updated count after one gate evaluation: the new absolute count on
a dispatch, the old count otherwise. -/
theorem senderStep_snd_eq (st : Nat) (snap : List Char) :
    (senderStep st snap).2
      = if (senderStep st snap).1 = true then countSentences snap else st := by
  simp only [senderStep]
  split <;> simp

/-- C4 (counterexample): with stride 3, a dispatch happens at sentence
count 3; a following snapshot whose count jumps to 7 crosses the stride
boundary at 6 relative to the last-dispatch count, yet no dispatch is
triggered, because the code fires only when the *absolute* count is a
multiple of 3 (`current_sentences % 3 == 0`), not when the increase
crosses a stride boundary.  The claim says this crossing triggers exactly
one dispatch. -/
theorem c4_boundary_crossing_missed :
    senderStep 0 "a.b.c.".data = (true, 3)
    ∧ countSentences "a.b.c.d.e.f.g.".data = 7
    ∧ 3 + 3 ≤ 7
    ∧ senderStep 3 "a.b.c.d.e.f.g.".data = (false, 3) := by decide

/-- C4 (amended): relative to a last-dispatch count that is a multiple of
3 (an invariant of the gate), an increase of fewer than 3 sentences never
triggers; a dispatch fires exactly when the new absolute count is a
positive multiple of 3 different from the last-dispatch count — so a
boundary-crossing increase that lands on a non-multiple of 3 does not
trigger; on a dispatch the stored count becomes the new count (still a
multiple of 3), and re-evaluating the same snapshot immediately after a
dispatch triggers nothing. -/
theorem c4_sentence_gate (st : Nat) (snap : List Char) (hst : st % 3 = 0) :
    ((senderStep st snap).1 = true
      ↔ (0 < countSentences snap ∧ countSentences snap % 3 = 0
          ∧ countSentences snap ≠ st))
    ∧ (st < countSentences snap → countSentences snap < st + 3 →
        (senderStep st snap).1 = false)
    ∧ ((senderStep st snap).1 = true →
        (senderStep st snap).2 = countSentences snap)
    ∧ ((senderStep st snap).1 = false → (senderStep st snap).2 = st)
    ∧ (senderStep st snap).2 % 3 = 0
    ∧ (senderStep (countSentences snap) snap).1 = false := by
  refine ⟨senderStep_fst_iff st snap, ?_, ?_, ?_, ?_, ?_⟩
  · intro hlo hhi
    rcases hfire : (senderStep st snap).1 with _ | _
    · rfl
    · exfalso
      obtain ⟨-, h2, -⟩ := (senderStep_fst_iff st snap).1 hfire
      omega
  · intro hfire
    rw [senderStep_snd_eq, hfire]
    simp
  · intro hfire
    rw [senderStep_snd_eq, hfire]
    simp
  · rcases hfire : (senderStep st snap).1 with _ | _
    · rw [senderStep_snd_eq, hfire]
      simpa using hst
    · rw [senderStep_snd_eq, hfire]
      obtain ⟨-, h2, -⟩ := (senderStep_fst_iff st snap).1 hfire
      simpa using h2
  · rcases hfire : (senderStep (countSentences snap) snap).1 with _ | _
    · rfl
    · obtain ⟨-, -, h3⟩ :=
        (senderStep_fst_iff (countSentences snap) snap).1 hfire
      exact absurd rfl h3

/-- C4 (witness): last dispatch at 3 (a multiple of 3), new count 4 — an
increase of one sentence triggers nothing. -/
theorem c4_sentence_gate_witness :
    (senderStep 3 "a.b.c.d.".data).1 = false :=
  (c4_sentence_gate 3 "a.b.c.d.".data (by decide)).2.1 (by decide) (by decide)

/-! ## C5 -/

/-- After `call_model_node`, the routing decision is the appended
response's tool-call flag: `should_continue` inspects only the last
message of the history. -/
theorem should_continue_after_model (st : TranscriptState) (resp : ModelResponse) :
    should_continue (call_model_node st resp) = resp.toolCalls := by
  simp [should_continue, call_model_node, getLast?_append_single]

/-- A model runtime that signals a tool call on every response drives the
graph into the recursion limit for every amount of fuel. -/
theorem runGraph_const_tool (sys : Msg) (oracle : List Msg → ModelResponse)
    (toolResult : TranscriptState → List Char)
    (h : ∀ ms, (oracle ms).toolCalls = true) :
    ∀ fuel st, runGraph sys oracle toolResult fuel st = RunResult.recursionError := by
  intro fuel
  induction fuel with
  | zero => intro st; rfl
  | succ n ih =>
    intro st
    have hcont :
        should_continue (call_model_node st (oracle (assembleMessages sys st))) = true := by
      rw [should_continue_after_model]
      exact h _
    simp [runGraph, hcont, ih]

/-- C5 (counterexample): a model that keeps signalling tool calls, run
with the runtime's default recursion limit of 25: the invocation ends in
`GraphRecursionError`, not in a final state carrying the silence sentinel.
`should_continue` contains no iteration counter and `AgentService` passes
no cap of its own, so no fail-closed path to the sentinel exists. -/
theorem c5_no_fail_closed_to_sentinel :
    runGraph ⟨Role.system, "prompt".data, false⟩
      (fun _ => ⟨"lookup".data, true⟩) (fun _ => "[]".data) 25
      ⟨some ⟨Role.human, "find products".data, false⟩, []⟩
      = RunResult.recursionError :=
  runGraph_const_tool _ _ _ (fun _ => rfl) 25 _

/-- C5 (amended): the tool-call loop repeats until the model produces a
response with no further tool request, in which case the run finishes with
that state; otherwise the runtime's recursion limit is exhausted and the
invocation ends in a recursion error — it does not return the silence
sentinel.  Every run has exactly one of these two outcomes. -/
theorem c5_loop_outcomes (sys : Msg) (oracle : List Msg → ModelResponse)
    (toolResult : TranscriptState → List Char) (fuel : Nat) (st : TranscriptState) :
    (∃ st', runGraph sys oracle toolResult fuel st = RunResult.finished st'
        ∧ should_continue st' = false)
    ∨ runGraph sys oracle toolResult fuel st = RunResult.recursionError := by
  induction fuel generalizing st with
  | zero => right; rfl
  | succ n ih =>
    rcases hcont : should_continue
        (call_model_node st (oracle (assembleMessages sys st))) with _ | _
    · left
      refine ⟨call_model_node st (oracle (assembleMessages sys st)), ?_, hcont⟩
      simp [runGraph, hcont]
    · have : runGraph sys oracle toolResult (n + 1) st
          = runGraph sys oracle toolResult n
              (tool_node (call_model_node st (oracle (assembleMessages sys st)))
                (toolResult (call_model_node st (oracle (assembleMessages sys st))))) := by
        simp [runGraph, hcont]
      rw [this]
      exact ih _

/-! ## C6 -/

/-- A closed session absorbs every event: once the receiver loop has
broken out, queued events are never processed. -/
theorem runSession_closed (s : Session) (h : s.closed = true) :
    ∀ evs : List Event, runSession s evs = s := by
  intro evs
  induction evs generalizing s with
  | nil => rfl
  | cons e rest ih =>
    have hstep : processEvent s e = s := by
      cases e with
      | text snap => simp [processEvent, processSnapshot, h]
      | stop => simp [processEvent, processStop, h]
    calc runSession s (e :: rest) = runSession (processEvent s e) rest := rfl
      _ = runSession s rest := by rw [hstep]
      _ = s := ih s h

/-- C6 (counterexample): the snapshot `"a.b.c."` triggers an in-loop
dispatch whose input is the entire stabilized text, so the un-dispatched
suffix is empty when the stop signal arrives — the claim then requires no
forced dispatch, yet the stop handling performs a second agent invocation,
again with the full transcript. -/
theorem c6_flush_redispatches_full_text :
    (runSession initSession [Event.text "a.b.c.".data]).dispatches
        = ["a.b.c.".data]
    ∧ (runSession initSession [Event.text "a.b.c.".data]).stabilized
        = "a.b.c.".data
    ∧ (runSession initSession [Event.text "a.b.c.".data, Event.stop]).dispatches
        = ["a.b.c.".data, "a.b.c.".data] := by decide

/-- C6 (amended): on a stop signal, a forced agent invocation occurs iff
the full stabilized transcript is non-empty, and its input is that full
transcript (not the un-dispatched suffix — the dispatch happens even when
everything was already dispatched); with an empty transcript no forced
dispatch occurs; the session is then closed and no further agent
invocations occur regardless of further queued events. -/
theorem c6_stop_flush (s : Session) (evs : List Event) (h : s.closed = false) :
    (s.stabilized ≠ [] →
        (processStop s).dispatches = s.dispatches ++ [s.stabilized])
    ∧ (s.stabilized = [] → (processStop s).dispatches = s.dispatches)
    ∧ (processStop s).closed = true
    ∧ runSession (processStop s) evs = processStop s := by
  have hclosed : (processStop s).closed = true := by
    simp only [processStop, h]
    rcases he : s.stabilized.isEmpty with _ | _ <;> simp [he]
  refine ⟨?_, ?_, hclosed, runSession_closed _ hclosed evs⟩
  · intro hne
    have he : s.stabilized.isEmpty = false := by
      simpa [List.isEmpty_iff] using hne
    simp [processStop, h, he]
  · intro hnil
    simp [processStop, h, hnil]

/-- C6 (witness): a session holding un-dispatched suffix `"final remark"`
receives the stop signal: one forced dispatch with that text, the session
closes, and a further queued snapshot is ignored. -/
theorem c6_stop_flush_witness :
    (processStop ⟨0, "final remark".data, [], false⟩).dispatches
        = [] ++ ["final remark".data]
    ∧ (processStop ⟨0, "final remark".data, [], false⟩).closed = true
    ∧ runSession (processStop ⟨0, "final remark".data, [], false⟩)
        [Event.text "More text.".data] = processStop ⟨0, "final remark".data, [], false⟩ := by
  have h := c6_stop_flush ⟨0, "final remark".data, [], false⟩
    [Event.text "More text.".data] rfl
  exact ⟨h.1 (by decide), h.2.2.1, h.2.2.2⟩

/-! ## C7 -/

/-- C7 (code bug, evaluated at the failing input): the first model call of
a round consumes the pending transcript and clears it (`latest_transcript
= None` — the true half of the claim).  But after the tool call runs, the
fallback that the code's own comment promises — "Find the last
HumanMessage in the history and add it back to the prompt" — finds
nothing, because `call_model_node` persists only the model response and
`ToolNode` persists only tool messages: `ai_history` never contains a
human turn.  The reassembled message list for the re-invocation therefore
contains no human message at all; the model does not see the user's
request. -/
theorem c7_tool_loop_drops_request :
    (call_model_node
        ⟨some ⟨Role.human, "find products with high coupon".data, false⟩, []⟩
        ⟨"lookup".data, true⟩).latest_transcript = none
    ∧ (tool_node
        (call_model_node
          ⟨some ⟨Role.human, "find products with high coupon".data, false⟩, []⟩
          ⟨"lookup".data, true⟩) "[]".data).ai_history.reverse.find?
            (fun m => m.role == Role.human) = none
    ∧ assembleMessages ⟨Role.system, "You are an AI assistant".data, false⟩
        (tool_node
          (call_model_node
            ⟨some ⟨Role.human, "find products with high coupon".data, false⟩, []⟩
            ⟨"lookup".data, true⟩) "[]".data)
      = ⟨Role.system, "You are an AI assistant".data, false⟩
        :: (tool_node
            (call_model_node
              ⟨some ⟨Role.human, "find products with high coupon".data, false⟩, []⟩
              ⟨"lookup".data, true⟩) "[]".data).ai_history
    ∧ (assembleMessages ⟨Role.system, "You are an AI assistant".data, false⟩
        (tool_node
          (call_model_node
            ⟨some ⟨Role.human, "find products with high coupon".data, false⟩, []⟩
            ⟨"lookup".data, true⟩) "[]".data)).all
          (fun m => m.role != Role.human) = true := by decide

/-! ## C8 -/

/-- The updated offset after one gate evaluation: the full snapshot on a
dispatch, the old offset otherwise. -/
theorem guiStep_snd_eq (minWords : Nat) (last snap : List Char) :
    (guiStep minWords last snap).2
      = if (guiStep minWords last snap).1 = true then snap else last := by
  simp only [guiStep]
  split <;> simp

/-- C8: the word-count gate dispatches exactly when the stripped new
suffix has more than `minWords` words; an empty (hence also a
whitespace-only) suffix never dispatches; on a dispatch the offset
advances to the full snapshot, after which re-evaluating the same
snapshot dispatches nothing — one dispatch per crossing. -/
theorem c8_word_gate (minWords : Nat) (last snap : List Char) :
    ((guiStep minWords last snap).1 = true
      ↔ minWords < countWords (newChunk last snap))
    ∧ (newChunk last snap = [] → guiStep minWords last snap = (false, last))
    ∧ ((guiStep minWords last snap).1 = true →
        (guiStep minWords last snap).2 = snap
        ∧ guiStep minWords snap snap = (false, snap)) := by
  have hself : guiStep minWords snap snap = (false, snap) := by
    have hdrop : newChunk snap snap = [] := by
      simp [newChunk, List.drop_length, pyStrip]
    simp [guiStep, hdrop]
  refine ⟨?_, ?_, ?_⟩
  · by_cases hempty : newChunk last snap = []
    · have hzero : countWords (newChunk last snap) = 0 := by
        rw [hempty]; rfl
      simp only [guiStep, hempty, hzero]
      simp
      exact Nat.zero_le _
    · have hne : (newChunk last snap).isEmpty = false := by
        simpa [List.isEmpty_iff] using hempty
      by_cases hlt : minWords < countWords (newChunk last snap) <;>
        simp [guiStep, hne, hlt]
  · intro hempty
    simp [guiStep, hempty]
  · intro hfire
    refine ⟨?_, hself⟩
    rw [guiStep_snd_eq, hfire]
    simp

/-- C8 (witness): threshold 2 as in `gui.py`; a four-word suffix
dispatches once, and the advanced offset blocks a re-dispatch. -/
theorem c8_word_gate_witness :
    (guiStep 2 [] "one two three four".data).1 = true
    ∧ guiStep 2 "one two three four".data "one two three four".data
      = (false, "one two three four".data) := by
  have h := c8_word_gate 2 [] "one two three four".data
  have hf : (guiStep 2 [] "one two three four".data).1 = true :=
    h.1.mpr (by decide)
  exact ⟨hf, (h.2.2 hf).2⟩

/-! ## C10 -/

/-- C10: when the gate does not fire, `last_agent_transcript` is left
unchanged, and when the transcript later grows by appending, the old
un-dispatched text is still at the head of the newly computed suffix —
it is never skipped past the gate. -/
theorem c10_offset_only_on_dispatch (minWords : Nat) (last snap ext : List Char)
    (h : (guiStep minWords last snap).1 = false)
    (hlen : last.length ≤ snap.length) :
    (guiStep minWords last snap).2 = last
    ∧ newChunk last (snap ++ ext) = pyStrip (snap.drop last.length ++ ext) := by
  constructor
  · rw [guiStep_snd_eq, h]
    simp
  · simp [newChunk, List.drop_append_of_le_length hlen]

/-- C10 (witness): a two-word suffix (≤ 2) does not advance the offset,
and the un-dispatched "cd" stays at the head of the next suffix. -/
theorem c10_offset_only_on_dispatch_witness :
    (guiStep 2 "ab ".data "ab cd".data).2 = "ab ".data
    ∧ newChunk "ab ".data ("ab cd".data ++ " ef gh".data)
      = pyStrip ("ab cd".data.drop "ab ".data.length ++ " ef gh".data) :=
  c10_offset_only_on_dispatch 2 "ab ".data "ab cd".data " ef gh".data
    (by decide) (by decide)

/-! ## C9 -/

/-- Stage lemma: profile filtering preserves membership and guarantees the
profile criterion when it was truthy. -/
theorem mem_filterByProfile {p : Product} {l : List Product}
    {rp : Option (List Char)} (h : p ∈ filterByProfile l rp) :
    p ∈ l ∧ (∀ s, rp = some s → s ≠ [] →
      lowerText p.risk_profile = lowerText s) := by
  by_cases ht : truthyStr rp = true
  · rw [filterByProfile, if_pos ht] at h
    obtain ⟨hmem, heq⟩ := List.mem_filter.1 h
    refine ⟨hmem, ?_⟩
    intro s hs _hne
    subst hs
    simpa using heq
  · rw [filterByProfile, if_neg ht] at h
    refine ⟨h, ?_⟩
    intro s hs hne
    subst hs
    exact absurd (by simpa [truthyStr, List.isEmpty_iff] using hne) ht

/-- Stage lemma: currency filtering preserves membership and guarantees
the currency criterion when it was truthy. -/
theorem mem_filterByCurrency {p : Product} {l : List Product}
    {cur : Option (List Char)} (h : p ∈ filterByCurrency l cur) :
    p ∈ l ∧ (∀ s, cur = some s → s ≠ [] →
      lowerText p.currency = lowerText s) := by
  by_cases ht : truthyStr cur = true
  · rw [filterByCurrency, if_pos ht] at h
    obtain ⟨hmem, heq⟩ := List.mem_filter.1 h
    refine ⟨hmem, ?_⟩
    intro s hs _hne
    subst hs
    simpa using heq
  · rw [filterByCurrency, if_neg ht] at h
    refine ⟨h, ?_⟩
    intro s hs hne
    subst hs
    exact absurd (by simpa [truthyStr, List.isEmpty_iff] using hne) ht

/-- Stage lemma: coupon filtering preserves membership and guarantees the
coupon criterion when it was given. -/
theorem mem_filterByCoupon {p : Product} {l : List Product}
    {mc : Option Rat} (h : p ∈ filterByCoupon l mc) :
    p ∈ l ∧ (∀ m, mc = some m → couponOk m p.coupon_pa = true) := by
  rcases mc with _ | m
  · exact ⟨h, fun m hm => by cases hm⟩
  · obtain ⟨hmem, hok⟩ := List.mem_filter.1 h
    exact ⟨hmem, fun m' hm' => by cases hm'; exact hok⟩

/-- C9: the product search returns at most 10 records; every returned
record is drawn from the database and satisfies each provided criterion
(risk profile and currency case-insensitively, coupon at least the given
minimum). -/
theorem c9_search_contract (db : List Product) (rp cur : Option (List Char))
    (mc : Option Rat) :
    (search_structured_products db rp cur mc).length ≤ 10
    ∧ ∀ p ∈ search_structured_products db rp cur mc,
        p ∈ db
        ∧ (∀ s, rp = some s → s ≠ [] →
            lowerText p.risk_profile = lowerText s)
        ∧ (∀ s, cur = some s → s ≠ [] →
            lowerText p.currency = lowerText s)
        ∧ (∀ m, mc = some m → couponOk m p.coupon_pa = true) := by
  constructor
  · exact List.length_take_le _ _
  · intro p hp
    have h3 := List.mem_of_mem_take hp
    obtain ⟨h2, hcoup⟩ := mem_filterByCoupon h3
    obtain ⟨h1, hcur⟩ := mem_filterByCurrency h2
    obtain ⟨h0, hprof⟩ := mem_filterByProfile h1
    exact ⟨h0, hprof, hcur, hcoup⟩

/-- C9 (witness): the contract at a concrete database and query. -/
theorem c9_search_contract_witness :
    (search_structured_products
        [⟨"Konservativ".data, "CHF".data, some 2⟩,
         ⟨"Wachstum".data, "USD".data, some 7⟩]
        (some "konservativ".data) none (some 1)).length ≤ 10 :=
  (c9_search_contract
    [⟨"Konservativ".data, "CHF".data, some 2⟩,
     ⟨"Wachstum".data, "USD".data, some 7⟩]
    (some "konservativ".data) none (some 1)).1
